import Mathlib

/-!
# Dominator — Elo-style checkpoint evaluator: formal development

Shallow embedding of the evaluator described by the repository's spec and
of the frontend helpers visible in the source.

The frontend declares the data shapes (`TierResult`, `EvalResult`,
`EloState` in the admin evals page) but the evaluator computation itself
(tier evaluation, rating update, regression detection in the backend job)
is not among the source files; those parts are modelled from the spec, as
marked on each definition.  Numbers are embedded as `ℕ` for counts, `ℚ`
for score/threshold arithmetic and `ℝ` for Elo ratings (the expected-score
formula uses a real exponential).
-/

namespace Dominator

/-- Aggregated outcome of games against one frozen tier — the `TierResult`
interface declared in the admin evals page.  Counts are naturals, so
non-negativity holds by construction. -/
structure TierResult where
  games : ℕ
  wins : ℕ
  losses : ℕ
  draws : ℕ
  winrate : ℚ
  goals_for : ℕ
  goals_against : ℕ
  goal_diff : ℤ
  avg_game_length_seconds : ℚ
  kickoff_goals_conceded : ℕ
deriving DecidableEq, Repr

/-- Modelled from the spec: the per-game outcome returned by the external
Match Simulator collaborator (§6); the result of one game is classified
from the final score. -/
structure GameOutcome where
  goals_for : ℕ
  goals_against : ℕ
  length_seconds : ℚ
  kickoff_conceded : Bool
deriving DecidableEq, Repr

/-- Modelled from the spec: a fixed, versioned opponent used as an
evaluation anchor (§3 `FrozenTier`). -/
structure FrozenTier where
  name : String
  tier_type : String
  fixed_elo : Option ℚ
  ready : Bool
deriving DecidableEq, Repr

/-- Modelled from the spec: §4.1 per-tier aggregation — sum goals,
classify each game win/loss/draw by final score (a tie is a draw),
accumulate game length, count kickoff-conceded goals; `winrate` is
`wins / games`, and `0` when `games == 0`. -/
def aggregateGames (gs : List GameOutcome) : TierResult :=
  let wins := (gs.filter fun g => decide (g.goals_against < g.goals_for)).length
  let losses := (gs.filter fun g => decide (g.goals_for < g.goals_against)).length
  let draws := (gs.filter fun g => decide (g.goals_for = g.goals_against)).length
  let gf := (gs.map (·.goals_for)).sum
  let ga := (gs.map (·.goals_against)).sum
  { games := gs.length
    wins := wins
    losses := losses
    draws := draws
    winrate := if gs.length = 0 then 0 else (wins : ℚ) / (gs.length : ℚ)
    goals_for := gf
    goals_against := ga
    goal_diff := (gf : ℤ) - (ga : ℤ)
    avg_game_length_seconds :=
      if gs.length = 0 then 0 else (gs.map (·.length_seconds)).sum / (gs.length : ℚ)
    kickoff_goals_conceded := (gs.filter (·.kickoff_conceded)).length }

/-- Modelled from the spec: §4.1 the Tier Evaluator runs exactly
`games_per_opponent` games against one tier via the simulator (indexed by
game number) and aggregates them into one `TierResult`. -/
def evaluateTier (games_per_opponent : ℕ) (sim : ℕ → GameOutcome) : TierResult :=
  aggregateGames ((List.range games_per_opponent).map sim)

/-- Modelled from the spec: §4.1 the Tier Evaluator produces one
`TierResult` per `ready` tier, keyed by tier name. -/
def evalReadyTiers (tiers : List FrozenTier) (games_per_opponent : ℕ)
    (sim : String → ℕ → GameOutcome) : List (String × TierResult) :=
  (tiers.filter (·.ready)).map fun t => (t.name, evaluateTier games_per_opponent (sim t.name))

/-! ## Regression detector (§4.3), modelled from the spec over `ℚ` -/

/-- One evaluation run of a checkpoint — the `EvalResult` record declared
in the admin evals page / `CheckpointEvaluation` of the spec (§3), with
the numeric fields embedded as `ℚ`. -/
structure CheckpointEvaluation where
  checkpoint_step : ℕ
  checkpoint_path : String
  suite : String
  timestamp : String
  elapsed_seconds : ℚ
  games_per_opponent : ℕ
  rating_before : ℚ
  rating_after : ℚ
  results : List (String × TierResult)
  regression : Bool
  reasons : List String
deriving DecidableEq, Repr

/-- Modelled from the spec: the fixed threshold configuration of the
Regression Detector (§4.3); the concrete numbers are configurable. -/
structure Thresholds where
  rating_drop : ℚ
  winrate_drop : ℚ
  kickoff_increase : ℚ
  winrate_floor : ℚ
deriving DecidableEq, Repr

/-- Modelled from the spec: kickoff concede rate `kickoff_goals_conceded /
games` of one tier result (§4.3). -/
def kickoffRate (tr : TierResult) : ℚ :=
  (tr.kickoff_goals_conceded : ℚ) / (tr.games : ℚ)

/-- Modelled from the spec: §4.3 rating-drop rule — `rating_after <
rating_before - drop_threshold`. -/
def ratingDropReasons (th : Thresholds) (curr : CheckpointEvaluation) : List String :=
  if curr.rating_after < curr.rating_before - th.rating_drop
  then ["Elo rating dropped"] else []

/-- Modelled from the spec: §4.3 win-rate collapse rule — for any tier
present in both evaluations, `winrate_now < winrate_prev - threshold`. -/
def winrateDropReasons (th : Thresholds) (prev curr : CheckpointEvaluation) :
    List String :=
  curr.results.filterMap fun p =>
    match prev.results.lookup p.1 with
    | none => none
    | some ptr =>
      if p.2.winrate < ptr.winrate - th.winrate_drop
      then some (p.1 ++ " win rate dropped") else none

/-- Modelled from the spec: §4.3 kickoff regression rule — the kickoff
concede rate increases beyond a fixed ceiling relative to the previous
evaluation, for tiers present in both. -/
def kickoffReasons (th : Thresholds) (prev curr : CheckpointEvaluation) :
    List String :=
  curr.results.filterMap fun p =>
    match prev.results.lookup p.1 with
    | none => none
    | some ptr =>
      if kickoffRate ptr + th.kickoff_increase < kickoffRate p.2
      then some "Kickoff concede rate increased" else none

/-- Modelled from the spec: §4.3 absolute floor rule — any tier whose
`winrate` falls below the fixed minimum floor, regardless of trend. -/
def floorReasons (th : Thresholds) (curr : CheckpointEvaluation) : List String :=
  curr.results.filterMap fun p =>
    if p.2.winrate < th.winrate_floor
    then some (p.1 ++ " win rate below floor") else none

/-- Modelled from the spec: §4.3 the Regression Detector — each rule is
independently checked, any triggered rule adds its message to `reasons`
and sets `regression`; with no prior evaluation the result is
`(false, [])`. -/
def detectRegression (th : Thresholds) (prev : Option CheckpointEvaluation)
    (curr : CheckpointEvaluation) : Bool × List String :=
  match prev with
  | none => (false, [])
  | some p =>
    let reasons := ratingDropReasons th curr ++ winrateDropReasons th p curr
      ++ kickoffReasons th p curr ++ floorReasons th curr
    (!reasons.isEmpty, reasons)

/-! ## Rating updater (§4.2), modelled from the spec over `ℝ` -/

/-- Modelled from the spec: one sample of the rating history, `(step,
rating, timestamp)` (§3 `EloState.history`). -/
structure HistoryEntry where
  step : ℕ
  rating : ℝ
  timestamp : String

/-- The candidate's running rating state — the `EloState` record declared
in the admin evals page / §3 of the spec (`tier_ratings` resolves the
effective rating of non-pinned tiers). -/
structure EloState where
  dominance_rating : ℝ
  k_factor : ℝ
  history : List HistoryEntry
  tier_ratings : List (String × ℝ)

/-- Modelled from the spec: §4.2 expected score of the candidate against a
tier, `E = 1 / (1 + 10^((R_tier - R_candidate) / 400))`. -/
noncomputable def expectedScore (r_tier r_cand : ℝ) : ℝ :=
  1 / (1 + Real.rpow 10 ((r_tier - r_cand) / 400))

/-- Modelled from the spec: §4.2 actual score against a tier,
`S = (wins + 0.5*draws) / games`. -/
noncomputable def actualScore (tr : TierResult) : ℝ :=
  ((tr.wins : ℝ) + (1 / 2) * (tr.draws : ℝ)) / (tr.games : ℝ)

/-- Modelled from the spec: §4.2 rating delta contributed by one tier,
`k_factor * (S - E)`; the tier's effective rating is paired with its
result. -/
noncomputable def tierDelta (k_factor r_cand : ℝ) (p : ℝ × TierResult) : ℝ :=
  k_factor * (actualScore p.2 - expectedScore p.1 r_cand)

/-- Modelled from the spec: §4.2 edge case — a tier with `games == 0` is
excluded from the rating computation. -/
def eligibleResults (results : List (ℝ × TierResult)) : List (ℝ × TierResult) :=
  results.filter fun p => decide (p.2.games ≠ 0)

/-- Modelled from the spec: §4.2 the Rating Updater — per-tier deltas are
summed and divided by the number of tiers evaluated (equal weighting) and
added to `rating_before`.  The stored-precision rounding mentioned for
displayed behavior is not part of the update itself. -/
noncomputable def updateRating (rating_before k_factor : ℝ)
    (results : List (ℝ × TierResult)) : ℝ :=
  let el := eligibleResults results
  rating_before + ((el.map (tierDelta k_factor rating_before)).sum) / (el.length : ℝ)

/-- Modelled from the spec: §7 error taxonomy — the failure classes of one
evaluation. -/
inductive EvalError where
  | configurationError
  | simulatorFailure
deriving DecidableEq, Repr

/-- Modelled from the spec: §4.2/§7 — commit one evaluation to `EloState`:
if zero tiers are eligible the evaluation fails with a configuration error
before any rating mutation; otherwise `dominance_rating` is updated and
one `(step, rating_after, timestamp)` entry is appended to the history. -/
noncomputable def applyEvaluation (st : EloState) (results : List (ℝ × TierResult))
    (step : ℕ) (ts : String) : Except EvalError EloState :=
  if (eligibleResults results).isEmpty then .error .configurationError
  else
    let ra := updateRating st.dominance_rating st.k_factor results
    .ok { st with dominance_rating := ra, history := st.history ++ [⟨step, ra, ts⟩] }

/-! ## Frontend helpers present in the source -/

/-- One entry of the `AI_TIERS` table of the player home page. -/
structure AITier where
  name : String
  minWr : ℚ
  color : String
  icon : String
deriving DecidableEq, Repr, Inhabited

/-- The `AI_TIERS` table: seven tiers with increasing `minWr`
thresholds. -/
def AI_TIERS : List AITier :=
  [⟨"Bronze", 0, "#CD7F32", "🥉"⟩,
   ⟨"Silver", 25/100, "#C0C0C0", "🥈"⟩,
   ⟨"Gold", 40/100, "#FFD700", "🥇"⟩,
   ⟨"Platinum", 55/100, "#00CED1", "💎"⟩,
   ⟨"Diamond", 65/100, "#B9F2FF", "💠"⟩,
   ⟨"Champion", 78/100, "#9B30FF", "🏆"⟩,
   ⟨"Demon", 90/100, "#FF0040", "👹"⟩]

/-- The `getAITier` helper of the player home page: `null` maps to `AI_TIERS[0]`;
otherwise the table is scanned from the highest tier down and the first
tier whose `minWr` does not exceed the win rate is returned, falling back
to `AI_TIERS[0]`. -/
def getAITier (winRate : Option ℚ) : AITier :=
  match winRate with
  | none => AI_TIERS.headI
  | some wr => ((AI_TIERS.reverse.find? fun t => decide (t.minWr ≤ wr)).getD AI_TIERS.headI)

/-- The `score_json` object of a session as read by the stats page:
either score may be absent. -/
structure ScoreJson where
  player : Option ℚ
  opponent : Option ℚ
deriving DecidableEq, Repr

/-- A training session as consumed by the stats page — only the fields the
page's win/loss/draw filters read (`score_json` itself may be absent,
matching the optional-chaining access `s.score_json?.player`). -/
structure TrainingSession where
  id : String
  mode : String
  score_json : Option ScoreJson
deriving DecidableEq, Repr

/-- The read `s.score_json?.player || 0` of the stats page. -/
def playerScore (s : TrainingSession) : ℚ :=
  (s.score_json.bind (·.player)).getD 0

/-- The read `s.score_json?.opponent || 0` of the stats page. -/
def opponentScore (s : TrainingSession) : ℚ :=
  (s.score_json.bind (·.opponent)).getD 0

/-- The stats page `wins` filter: player score strictly greater. -/
def winsOf (l : List TrainingSession) : List TrainingSession :=
  l.filter fun s => decide (opponentScore s < playerScore s)

/-- The stats page `losses` filter: player score strictly smaller. -/
def lossesOf (l : List TrainingSession) : List TrainingSession :=
  l.filter fun s => decide (playerScore s < opponentScore s)

/-- The stats page `draws` filter: equal scores. -/
def drawsOf (l : List TrainingSession) : List TrainingSession :=
  l.filter fun s => decide (playerScore s = opponentScore s)

/-! ## General helper -/

/-- Three filters whose predicates hold exclusively-exhaustively on the
elements of a list partition it: the lengths add up to the list's
length. -/
lemma length_filter_three {α : Type} (p q r : α → Bool) (l : List α)
    (h : ∀ a ∈ l, (p a = true ∧ q a = false ∧ r a = false) ∨
      (p a = false ∧ q a = true ∧ r a = false) ∨
      (p a = false ∧ q a = false ∧ r a = true)) :
    (l.filter p).length + (l.filter q).length + (l.filter r).length = l.length := by
  induction l with
  | nil => simp
  | cons a t ih =>
    have ih' := ih fun b hb => h b (List.mem_cons_of_mem a hb)
    rcases h a (List.mem_cons_self a t) with ⟨h1, h2, h3⟩ | ⟨h1, h2, h3⟩ | ⟨h1, h2, h3⟩ <;>
      simp [List.filter_cons, h1, h2, h3] <;> omega

/-! ## Claims about the regression detector -/

/-- C4: with no prior evaluation to compare against, the Regression
Detector returns `regression = false` and `reasons = []`, regardless of
the evaluation's results. -/
theorem first_evaluation_exempt (th : Thresholds) (curr : CheckpointEvaluation) :
    detectRegression th none curr = (false, []) := rfl

/-- C5: the detector's `regression` flag is `true` exactly when its
`reasons` list is non-empty. -/
theorem regression_iff_reasons (th : Thresholds) (prev : Option CheckpointEvaluation)
    (curr : CheckpointEvaluation) :
    (detectRegression th prev curr).1 = true ↔ (detectRegression th prev curr).2 ≠ [] := by
  cases prev with
  | none => simp [detectRegression]
  | some p => simp [detectRegression]

/-- C3: the Regression Detector is a pure function of the two evaluations
and the static thresholds — any two invocations on the same inputs return
the same regression boolean and the same ordered reasons list. -/
theorem detector_deterministic (th : Thresholds) (prev : Option CheckpointEvaluation)
    (curr : CheckpointEvaluation) (o₁ o₂ : Bool × List String)
    (h₁ : o₁ = detectRegression th prev curr)
    (h₂ : o₂ = detectRegression th prev curr) :
    o₁.1 = o₂.1 ∧ o₁.2 = o₂.2 := by
  subst h₁; subst h₂; exact ⟨rfl, rfl⟩

/-- Witness for C3 at a concrete evaluation with no predecessor. -/
theorem detector_deterministic_witness :
    (detectRegression ⟨15, 1/10, 1/10, 3/10⟩ none
        ⟨0, "ckpt", "suite", "t0", 0, 50, 1000, 1004, [], false, []⟩).1
      = (detectRegression ⟨15, 1/10, 1/10, 3/10⟩ none
          ⟨0, "ckpt", "suite", "t0", 0, 50, 1000, 1004, [], false, []⟩).1 ∧
    (detectRegression ⟨15, 1/10, 1/10, 3/10⟩ none
        ⟨0, "ckpt", "suite", "t0", 0, 50, 1000, 1004, [], false, []⟩).2
      = (detectRegression ⟨15, 1/10, 1/10, 3/10⟩ none
          ⟨0, "ckpt", "suite", "t0", 0, 50, 1000, 1004, [], false, []⟩).2 :=
  detector_deterministic ⟨15, 1/10, 1/10, 3/10⟩ none
    ⟨0, "ckpt", "suite", "t0", 0, 50, 1000, 1004, [], false, []⟩
    (detectRegression ⟨15, 1/10, 1/10, 3/10⟩ none
      ⟨0, "ckpt", "suite", "t0", 0, 50, 1000, 1004, [], false, []⟩)
    (detectRegression ⟨15, 1/10, 1/10, 3/10⟩ none
      ⟨0, "ckpt", "suite", "t0", 0, 50, 1000, 1004, [], false, []⟩) rfl rfl

/-! ## Claims about the rating updater -/

/-- C8: `rating_after` is a deterministic function of `rating_before` and
`results` — two invocations of the Rating Updater on the same pair yield
the same value. -/
theorem update_rating_deterministic (rating_before k_factor : ℝ)
    (results : List (ℝ × TierResult)) (r₁ r₂ : ℝ)
    (h₁ : r₁ = updateRating rating_before k_factor results)
    (h₂ : r₂ = updateRating rating_before k_factor results) : r₁ = r₂ :=
  h₁.trans h₂.symm

/-- Witness for C8 at concrete inputs. -/
theorem update_rating_deterministic_witness :
    updateRating 1000 32 [] = updateRating 1000 32 [] :=
  update_rating_deterministic 1000 32 [] _ _ rfl rfl

/-! ## Claims about the tier evaluator -/

/-- Aggregation satisfies conservation, and plays back exactly the games
it was given. -/
lemma aggregateGames_fields (gs : List GameOutcome) :
    (aggregateGames gs).wins + (aggregateGames gs).losses + (aggregateGames gs).draws
      = (aggregateGames gs).games ∧ (aggregateGames gs).games = gs.length := by
  constructor
  · show (gs.filter fun g => decide (g.goals_against < g.goals_for)).length
      + (gs.filter fun g => decide (g.goals_for < g.goals_against)).length
      + (gs.filter fun g => decide (g.goals_for = g.goals_against)).length = gs.length
    apply length_filter_three
    intro g _
    rcases Nat.lt_trichotomy g.goals_for g.goals_against with h | h | h
    · exact Or.inr (Or.inl ⟨decide_eq_false (by omega), decide_eq_true h,
        decide_eq_false (by omega)⟩)
    · exact Or.inr (Or.inr ⟨decide_eq_false (by omega), decide_eq_false (by omega),
        decide_eq_true h⟩)
    · exact Or.inl ⟨decide_eq_true h, decide_eq_false (by omega),
        decide_eq_false (by omega)⟩
  · rfl

/-- C2: every `TierResult` produced for a ready tier satisfies
`wins + losses + draws = games` and `games = games_per_opponent`
(non-negativity holds by the `ℕ` typing of the counts). -/
theorem tier_result_conservation (tiers : List FrozenTier) (games_per_opponent : ℕ)
    (sim : String → ℕ → GameOutcome) (n : String) (tr : TierResult)
    (h : (n, tr) ∈ evalReadyTiers tiers games_per_opponent sim) :
    tr.wins + tr.losses + tr.draws = tr.games ∧ tr.games = games_per_opponent := by
  rcases List.mem_map.mp h with ⟨t, _, heq⟩
  injection heq with h1 h2
  subst h2
  refine ⟨(aggregateGames_fields _).1, ?_⟩
  have hg := (aggregateGames_fields ((List.range games_per_opponent).map (sim t.name))).2
  simpa [evaluateTier] using hg

/-- Witness for C2: one ready tier, two simulated 1–0 games. -/
theorem tier_result_conservation_witness :
    ((evaluateTier 2 fun _ => GameOutcome.mk 1 0 300 false).wins
      + (evaluateTier 2 fun _ => GameOutcome.mk 1 0 300 false).losses
      + (evaluateTier 2 fun _ => GameOutcome.mk 1 0 300 false).draws
      = (evaluateTier 2 fun _ => GameOutcome.mk 1 0 300 false).games)
    ∧ (evaluateTier 2 fun _ => GameOutcome.mk 1 0 300 false).games = 2 :=
  tier_result_conservation [⟨"baseline", "scripted", some 1000, true⟩] 2
    (fun _ _ => ⟨1, 0, 300, false⟩) "baseline" _ (by simp [evalReadyTiers])

/-! ## Claims about the stats page -/

/-- C10: the stats page wins/losses/draws filters partition the session
list — the bucket sizes add up to the total, every session lands in
exactly one bucket, and a session with no recorded score counts as a
draw. -/
theorem stats_page_partition (l : List TrainingSession) :
    ((winsOf l).length + (lossesOf l).length + (drawsOf l).length = l.length) ∧
    (∀ s ∈ l,
      (s ∈ winsOf l ∧ s ∉ lossesOf l ∧ s ∉ drawsOf l) ∨
      (s ∉ winsOf l ∧ s ∈ lossesOf l ∧ s ∉ drawsOf l) ∨
      (s ∉ winsOf l ∧ s ∉ lossesOf l ∧ s ∈ drawsOf l)) ∧
    (∀ s ∈ l, s.score_json = none → s ∈ drawsOf l) := by
  refine ⟨?_, ?_, ?_⟩
  · apply length_filter_three
    intro s _
    rcases lt_trichotomy (playerScore s) (opponentScore s) with h | h | h
    · exact Or.inr (Or.inl ⟨decide_eq_false (lt_asymm h), decide_eq_true h,
        decide_eq_false (ne_of_lt h)⟩)
    · exact Or.inr (Or.inr ⟨decide_eq_false (by rw [h]; exact lt_irrefl _),
        decide_eq_false (by rw [h]; exact lt_irrefl _), decide_eq_true h⟩)
    · exact Or.inl ⟨decide_eq_true h, decide_eq_false (lt_asymm h),
        decide_eq_false (ne_of_gt h)⟩
  · intro s hs
    rcases lt_trichotomy (playerScore s) (opponentScore s) with h | h | h
    · refine Or.inr (Or.inl ⟨?_, List.mem_filter.mpr ⟨hs, decide_eq_true h⟩, ?_⟩)
      · exact fun hc => absurd (of_decide_eq_true (List.mem_filter.mp hc).2) (lt_asymm h)
      · exact fun hc => absurd (of_decide_eq_true (List.mem_filter.mp hc).2) (ne_of_lt h)
    · refine Or.inr (Or.inr ⟨?_, ?_, List.mem_filter.mpr ⟨hs, decide_eq_true h⟩⟩)
      · exact fun hc => absurd (of_decide_eq_true (List.mem_filter.mp hc).2)
          (by rw [h]; exact lt_irrefl _)
      · exact fun hc => absurd (of_decide_eq_true (List.mem_filter.mp hc).2)
          (by rw [h]; exact lt_irrefl _)
    · refine Or.inl ⟨List.mem_filter.mpr ⟨hs, decide_eq_true h⟩, ?_, ?_⟩
      · exact fun hc => absurd (of_decide_eq_true (List.mem_filter.mp hc).2) (lt_asymm h)
      · exact fun hc => absurd (of_decide_eq_true (List.mem_filter.mp hc).2) (ne_of_gt h)
  · intro s hs hnone
    refine List.mem_filter.mpr ⟨hs, decide_eq_true ?_⟩
    simp [playerScore, opponentScore, hnone]

/-- Witness for C10: a two-session list, one session without a recorded
score. -/
theorem stats_page_partition_witness :
    ((winsOf [⟨"s1", "defense", none⟩, ⟨"s2", "shooting", some ⟨some 2, some 1⟩⟩]).length
      + (lossesOf [⟨"s1", "defense", none⟩, ⟨"s2", "shooting", some ⟨some 2, some 1⟩⟩]).length
      + (drawsOf [⟨"s1", "defense", none⟩, ⟨"s2", "shooting", some ⟨some 2, some 1⟩⟩]).length
      = 2)
    ∧ (⟨"s1", "defense", none⟩ : TrainingSession)
        ∈ drawsOf [⟨"s1", "defense", none⟩, ⟨"s2", "shooting", some ⟨some 2, some 1⟩⟩] :=
  ⟨(stats_page_partition [⟨"s1", "defense", none⟩, ⟨"s2", "shooting", some ⟨some 2, some 1⟩⟩]).1,
   (stats_page_partition [⟨"s1", "defense", none⟩,
      ⟨"s2", "shooting", some ⟨some 2, some 1⟩⟩]).2.2
     ⟨"s1", "defense", none⟩ (by decide) rfl⟩

/-! ## Rating-updater lemmas and claims -/

/-- Unfolding equation for `updateRating`. -/
lemma updateRating_def (rating_before k_factor : ℝ) (results : List (ℝ × TierResult)) :
    updateRating rating_before k_factor results
      = rating_before
        + ((eligibleResults results).map (tierDelta k_factor rating_before)).sum
          / ((eligibleResults results).length : ℝ) := rfl

/-- The expected score is strictly positive. -/
lemma expectedScore_pos (r_tier r_cand : ℝ) : 0 < expectedScore r_tier r_cand := by
  have hx : 0 < Real.rpow 10 ((r_tier - r_cand) / 400) :=
    Real.rpow_pos_of_pos (by norm_num) _
  rw [expectedScore]
  exact div_pos one_pos (by linarith)

/-- The expected score is strictly below one. -/
lemma expectedScore_lt_one (r_tier r_cand : ℝ) : expectedScore r_tier r_cand < 1 := by
  have hx : 0 < Real.rpow 10 ((r_tier - r_cand) / 400) :=
    Real.rpow_pos_of_pos (by norm_num) _
  rw [expectedScore, div_lt_one (by linarith)]
  linarith

/-- The actual score is non-negative. -/
lemma actualScore_nonneg (tr : TierResult) : 0 ≤ actualScore tr := by
  rw [actualScore]
  positivity

/-- The actual score is at most one when wins and draws fit in the game
count. -/
lemma actualScore_le_one (tr : TierResult) (h : tr.wins + tr.draws ≤ tr.games) :
    actualScore tr ≤ 1 := by
  rw [actualScore]
  rcases Nat.eq_zero_or_pos tr.games with hg | hg
  · simp [hg]
  · rw [div_le_one (by exact_mod_cast hg)]
    have hc : (tr.wins : ℝ) + (tr.draws : ℝ) ≤ (tr.games : ℝ) := by exact_mod_cast h
    have hd : (0 : ℝ) ≤ (tr.draws : ℝ) := Nat.cast_nonneg _
    linarith

/-- The tier result of the spec's concrete scenario: 50 games, 30 wins,
15 losses, 5 draws against the `baseline` tier. -/
def baselineScenario : TierResult :=
  { games := 50, wins := 30, losses := 15, draws := 5, winrate := 30/50,
    goals_for := 80, goals_against := 40, goal_diff := 40,
    avg_game_length_seconds := 300, kickoff_goals_conceded := 2 }

/-- C1: in the concrete scenario (`rating_before = 1000`, `k_factor = 32`,
one tier at effective rating 1000 with 50 games, 30 wins, 15 losses,
5 draws) the actual score is 0.65, the expected score is 0.5, the delta is
4.8 and `rating_after = 1004.8`. -/
theorem single_tier_scenario :
    actualScore baselineScenario = 0.65 ∧
    expectedScore 1000 1000 = 0.5 ∧
    tierDelta 32 1000 ((1000 : ℝ), baselineScenario) = 4.8 ∧
    updateRating 1000 32 [((1000 : ℝ), baselineScenario)] = 1004.8 := by
  have hS : actualScore baselineScenario = 0.65 := by
    rw [actualScore]
    norm_num [baselineScenario]
  have hE : expectedScore 1000 1000 = 0.5 := by
    have h0 : ((1000 : ℝ) - 1000) / 400 = 0 := by norm_num
    have h1 : Real.rpow 10 0 = 1 := Real.rpow_zero 10
    rw [expectedScore, h0, h1]
    norm_num
  have hD : tierDelta 32 1000 ((1000 : ℝ), baselineScenario) = 4.8 := by
    show (32 : ℝ) * (actualScore baselineScenario - expectedScore 1000 1000) = 4.8
    rw [hS, hE]; norm_num
  refine ⟨hS, hE, hD, ?_⟩
  rw [updateRating_def]
  have hel : eligibleResults [((1000 : ℝ), baselineScenario)]
      = [((1000 : ℝ), baselineScenario)] := rfl
  rw [hel]
  simp only [List.map_cons, List.map_nil, List.sum_cons, List.sum_nil,
    List.length_cons, List.length_nil, hD]
  norm_num

/-- C7: with exactly one tier evaluated, the rating moves by at most
`k_factor`, since the single-tier delta is `k_factor * (S - E)` with
`S ∈ [0,1]` and `E ∈ (0,1)`. -/
theorem single_tier_rating_bound (rating_before k_factor r_tier : ℝ) (tr : TierResult)
    (hk : 0 ≤ k_factor) (hsum : tr.wins + tr.losses + tr.draws = tr.games) :
    |updateRating rating_before k_factor [(r_tier, tr)] - rating_before| ≤ k_factor := by
  by_cases hg : tr.games = 0
  · have hel : eligibleResults [(r_tier, tr)] = [] := by simp [eligibleResults, hg]
    rw [updateRating_def, hel]
    simpa using hk
  · have hel : eligibleResults [(r_tier, tr)] = [(r_tier, tr)] := by
      simp [eligibleResults, hg]
    rw [updateRating_def, hel]
    have hS0 := actualScore_nonneg tr
    have hS1 := actualScore_le_one tr (by omega)
    have hE0 := expectedScore_pos r_tier rating_before
    have hE1 := expectedScore_lt_one r_tier rating_before
    have habs : |actualScore tr - expectedScore r_tier rating_before| ≤ 1 :=
      abs_le.mpr ⟨by linarith, by linarith⟩
    have hbound : |tierDelta k_factor rating_before (r_tier, tr)| ≤ k_factor := by
      have heq : |tierDelta k_factor rating_before (r_tier, tr)|
          = k_factor * |actualScore tr - expectedScore r_tier rating_before| := by
        simp only [tierDelta]
        rw [abs_mul, abs_of_nonneg hk]
      rw [heq]
      calc k_factor * |actualScore tr - expectedScore r_tier rating_before|
          ≤ k_factor * 1 := mul_le_mul_of_nonneg_left habs hk
        _ = k_factor := mul_one _
    simpa using hbound

/-- Witness for C7 at the concrete scenario inputs. -/
theorem single_tier_rating_bound_witness :
    |updateRating 1000 32 [((1000 : ℝ), baselineScenario)] - 1000| ≤ 32 :=
  single_tier_rating_bound 1000 32 1000 baselineScenario (by norm_num) (by decide)

/-- A tier result with zero games, as excluded by §4.2. -/
def zeroGamesResult : TierResult :=
  { games := 0, wins := 0, losses := 0, draws := 0, winrate := 0, goals_for := 0,
    goals_against := 0, goal_diff := 0, avg_game_length_seconds := 0,
    kickoff_goals_conceded := 0 }

/-- C6: a tier with `games = 0` contributes nothing to the rating update;
if every tier is excluded this way the update degenerates to
`rating_after = rating_before` and committing the evaluation fails with a
configuration error, leaving `EloState` untouched (no history entry). -/
theorem zero_games_exclusion (rating_before k_factor r_tier : ℝ) (tr : TierResult)
    (results : List (ℝ × TierResult)) (st : EloState) (step : ℕ) (ts : String) :
    (tr.games = 0 →
      updateRating rating_before k_factor ((r_tier, tr) :: results)
        = updateRating rating_before k_factor results) ∧
    ((∀ p ∈ results, p.2.games = 0) →
      updateRating rating_before k_factor results = rating_before) ∧
    ((∀ p ∈ results, p.2.games = 0) →
      applyEvaluation st results step ts = .error .configurationError) := by
  have hfil : ∀ rs : List (ℝ × TierResult), (∀ p ∈ rs, p.2.games = 0) →
      eligibleResults rs = [] := by
    intro rs h
    refine List.filter_eq_nil_iff.mpr fun p hp => ?_
    simp [h p hp]
  refine ⟨?_, ?_, ?_⟩
  · intro h0
    rw [updateRating_def, updateRating_def]
    have hskip : eligibleResults ((r_tier, tr) :: results) = eligibleResults results := by
      simp [eligibleResults, h0]
    rw [hskip]
  · intro hall
    rw [updateRating_def, hfil results hall]
    simp
  · intro hall
    simp [applyEvaluation, hfil results hall]

/-- Witness for C6: two zero-games tiers, then one, then the failing
commit. -/
theorem zero_games_exclusion_witness :
    (updateRating 1000 32 [((1200 : ℝ), zeroGamesResult), ((1200 : ℝ), zeroGamesResult)]
      = updateRating 1000 32 [((1200 : ℝ), zeroGamesResult)]) ∧
    (updateRating 1000 32 [((1200 : ℝ), zeroGamesResult)] = 1000) ∧
    (applyEvaluation ⟨1000, 32, [], []⟩ [((1200 : ℝ), zeroGamesResult)] 7 "t7"
      = .error .configurationError) :=
  have hall : ∀ p ∈ [((1200 : ℝ), zeroGamesResult)], p.2.games = 0 := by
    intro p hp
    rcases List.mem_singleton.mp hp with h
    subst h
    rfl
  have h := zero_games_exclusion 1000 32 1200 zeroGamesResult
    [((1200 : ℝ), zeroGamesResult)] ⟨1000, 32, [], []⟩ 7 "t7"
  ⟨h.1 rfl, h.2.1 hall, h.2.2 hall⟩

/-! ## Claims about `getAITier` -/

/-- The descending scan of `getAITier` is the evident cascade of
threshold tests. -/
lemma getAITier_some_eq (wr : ℚ) :
    getAITier (some wr) =
      if (90/100 : ℚ) ≤ wr then ⟨"Demon", 90/100, "#FF0040", "👹"⟩
      else if (78/100 : ℚ) ≤ wr then ⟨"Champion", 78/100, "#9B30FF", "🏆"⟩
      else if (65/100 : ℚ) ≤ wr then ⟨"Diamond", 65/100, "#B9F2FF", "💠"⟩
      else if (55/100 : ℚ) ≤ wr then ⟨"Platinum", 55/100, "#00CED1", "💎"⟩
      else if (40/100 : ℚ) ≤ wr then ⟨"Gold", 40/100, "#FFD700", "🥇"⟩
      else if (25/100 : ℚ) ≤ wr then ⟨"Silver", 25/100, "#C0C0C0", "🥈"⟩
      else ⟨"Bronze", 0, "#CD7F32", "🥉"⟩ := by
  by_cases h1 : (90/100 : ℚ) ≤ wr
  · simp [getAITier, AI_TIERS, List.find?, h1]
  by_cases h2 : (78/100 : ℚ) ≤ wr
  · simp [getAITier, AI_TIERS, List.find?, h1, h2]
  by_cases h3 : (65/100 : ℚ) ≤ wr
  · simp [getAITier, AI_TIERS, List.find?, h1, h2, h3]
  by_cases h4 : (55/100 : ℚ) ≤ wr
  · simp [getAITier, AI_TIERS, List.find?, h1, h2, h3, h4]
  by_cases h5 : (40/100 : ℚ) ≤ wr
  · simp [getAITier, AI_TIERS, List.find?, h1, h2, h3, h4, h5]
  by_cases h6 : (25/100 : ℚ) ≤ wr
  · simp [getAITier, AI_TIERS, List.find?, h1, h2, h3, h4, h5, h6]
  by_cases h7 : (0 : ℚ) ≤ wr
  · simp [getAITier, AI_TIERS, List.find?, h1, h2, h3, h4, h5, h6, h7]
  · simp [getAITier, AI_TIERS, List.find?, h1, h2, h3, h4, h5, h6, h7]

set_option maxHeartbeats 2000000 in
/-- C9: `getAITier` is total and monotone — `null` maps to Bronze, any
win rate below 0.25 (including negative ones) maps to Bronze, a
non-null win rate maps to a tier of the table whose threshold is the
greatest one not exceeding it, and larger win rates map to tiers with
thresholds at least as large. -/
theorem getAITier_total_monotone :
    getAITier none = ⟨"Bronze", 0, "#CD7F32", "🥉"⟩ ∧
    (∀ wr : ℚ, wr < 25/100 → getAITier (some wr) = ⟨"Bronze", 0, "#CD7F32", "🥉"⟩) ∧
    (∀ wr : ℚ, getAITier (some wr) ∈ AI_TIERS ∧
      (0 ≤ wr → (getAITier (some wr)).minWr ≤ wr) ∧
      (∀ t ∈ AI_TIERS, t.minWr ≤ wr → t.minWr ≤ (getAITier (some wr)).minWr)) ∧
    (∀ a b : ℚ, a ≤ b → (getAITier (some a)).minWr ≤ (getAITier (some b)).minWr) := by
  refine ⟨rfl, ?_, ?_, ?_⟩
  · intro wr h
    rw [getAITier_some_eq]
    split_ifs with h1 h2 h3 h4 h5 h6 <;> first | rfl | (exfalso; linarith)
  · intro wr
    refine ⟨?_, ?_, ?_⟩
    · rw [getAITier_some_eq]
      split_ifs <;> simp [AI_TIERS]
    · intro h0
      rw [getAITier_some_eq]
      split_ifs with h1 h2 h3 h4 h5 h6
      · exact h1
      · exact h2
      · exact h3
      · exact h4
      · exact h5
      · exact h6
      · exact h0
    · intro t ht hle
      rw [getAITier_some_eq]
      split_ifs with h1 h2 h3 h4 h5 h6 <;> fin_cases ht <;>
        norm_num at hle ⊢ <;> linarith
  · intro a b hab
    rw [getAITier_some_eq, getAITier_some_eq]
    split_ifs <;> norm_num <;> linarith

/-- Witness for C9 at concrete win rates. -/
theorem getAITier_total_monotone_witness :
    getAITier (some (1/10)) = ⟨"Bronze", 0, "#CD7F32", "🥉"⟩ ∧
    (getAITier (some (1/2))).minWr ≤ 1/2 ∧
    (getAITier (some (3/10))).minWr ≤ (getAITier (some (1/2))).minWr :=
  have h := getAITier_total_monotone
  ⟨h.2.1 (1/10) (by norm_num),
   (h.2.2.1 (1/2)).2.1 (by norm_num),
   h.2.2.2 (3/10) (1/2) (by norm_num)⟩

end Dominator
